import Mathlib

/-!
# Verification of the retry/backoff core of `src/app.py`

Shallow embedding of the single-file Streamlit text-to-image client:
credential resolution (`get_hf_token` and the module-level halt check),
payload construction and the bounded retry loop of `call_hf_text2image`,
and the UI size options. JSON numbers are modelled as rationals; Python
booleans count as numbers (`bool` is a subclass of `int`), every other
JSON value raises `TypeError` inside `min`/`max`.
-/

set_option autoImplicit false

namespace App

/-- A JSON value as delivered by `r.json()`. Numbers are rationals. -/
inductive JsonV where
  | jnum (q : ℚ)
  | jstr (s : String)
  | jbool (b : Bool)
  | jnull
  | jarr (xs : List JsonV)
  | jobj (fields : List (String × JsonV))
deriving Repr

/-- First-match lookup in a JSON object's field list (Python `dict`
keys are unique after parsing, so first match equals `dict.get`). -/
def lookupField : List (String × JsonV) → String → Option JsonV
  | [], _ => none
  | (k, v) :: rest, key => if k = key then some v else lookupField rest key

/-- Python's `s.startswith(pre)`: the characters of `pre` are a prefix
of the characters of `s`. -/
def pyStartsWith (s pre : String) : Bool := pre.data.isPrefixOf s.data

/-- One HTTP response as seen by the loop body: `requests` exposes the
status code, the `content-type` header (defaulted to `""` when absent),
the body parsed as JSON when that succeeds (`r.json()`), the body as
text (`r.text`) and the raw bytes (`r.content`). -/
structure HttpResponse where
  status : Nat
  contentType : String
  jsonBody : Option JsonV
  text : String
  content : List Nat
deriving Repr

/-- `est = j.get("estimated_time", 10)` wrapped in
`try ... except Exception: est = 10`: a failed parse, a non-object JSON
value (whose `.get` raises `AttributeError`, caught) or a missing field
all yield the default `10`; a present field is returned as-is. -/
def estOf (body : Option JsonV) : JsonV :=
  match body with
  | some (.jobj fs) =>
    match lookupField fs "estimated_time" with
    | some v => v
    | none => .jnum 10
  | _ => .jnum 10

/-- Values Python's `min`/`max` accept when mixed with `int` literals:
numbers, and `bool` (a subclass of `int`: `True = 1`, `False = 0`).
Any other operand raises `TypeError`. -/
def toPyNumber : JsonV → Option ℚ
  | .jnum q => some q
  | .jbool b => some (if b then 1 else 0)
  | _ => none

/-- `min(max(est, 3), 30)` — the sleep duration for a numeric estimate. -/
def clampSleep (est : ℚ) : ℚ := min (max est 3) 30

/-- `try: err = r.json() except Exception: err = r.text` on line 84-87:
the body decoded as JSON when parseable, else the raw text. -/
def classifyBody (r : HttpResponse) : JsonV ⊕ String :=
  match r.jsonBody with
  | some j => Sum.inl j
  | none => Sum.inr r.text

/-- How one call of `call_hf_text2image` terminates: returning the image
bytes (line 71), the `RuntimeError` of line 89 carrying status,
content-type and decoded body, the exhausted-retries `RuntimeError` of
line 91, or the uncaught `TypeError` from `min`/`max` on line 80. -/
inductive GenOutcome where
  | success (content : List Nat)
  | apiError (status : Nat) (ctype : String) (body : JsonV ⊕ String)
  | exhausted
  | typeError
deriving Repr

/-- The observable behaviour of one call: its outcome, the number of
HTTP POSTs issued, and the sleep durations in order. -/
structure GenResult where
  outcome : GenOutcome
  attempts : Nat
  sleeps : List ℚ
deriving Repr

/-- The body of `for attempt in range(max_retries)` (lines 65-91), with
`resp i` the response to the `i`-th POST and `fuel` the remaining
iterations. Branch order follows the source: the `200 ∧ image/*` success
test, then the `503/504` sleep-and-retry branch, then the hard error. -/
def genLoop (resp : Nat → HttpResponse) : Nat → Nat → GenResult
  | _, 0 => { outcome := .exhausted, attempts := 0, sleeps := [] }
  | i, fuel + 1 =>
    let r := resp i
    if r.status = 200 ∧ pyStartsWith r.contentType "image/" then
      { outcome := .success r.content, attempts := 1, sleeps := [] }
    else if r.status = 503 ∨ r.status = 504 then
      match toPyNumber (estOf r.jsonBody) with
      | some est =>
        let rest := genLoop resp (i + 1) fuel
        { outcome := rest.outcome
          attempts := rest.attempts + 1
          sleeps := clampSleep est :: rest.sleeps }
      | none => { outcome := .typeError, attempts := 1, sleeps := [] }
    else
      { outcome := .apiError r.status r.contentType (classifyBody r)
        attempts := 1
        sleeps := [] }

/-- `call_hf_text2image`'s retry loop: `range(max_retries)` is empty for
a non-positive argument, so the fuel is `max_retries.toNat`. -/
def call_hf_text2image (resp : Nat → HttpResponse) (max_retries : Int) :
    GenResult :=
  genLoop resp 0 max_retries.toNat

/-- The `"parameters"` group of the payload (lines 48-53 and 60-63):
the dict literal with four fixed keys, then `negative_prompt` inserted
when the string is truthy (non-empty), then `seed` when not `None`.
Insertion of a fresh key appends at the end of a Python dict. -/
def buildParameters (steps : Int) (guidance : ℚ) (width height : Int)
    (negative_prompt : String) (seed : Option Int) :
    List (String × JsonV) :=
  let base : List (String × JsonV) :=
    [("num_inference_steps", .jnum steps),
     ("guidance_scale", .jnum guidance),
     ("width", .jnum width),
     ("height", .jnum height)]
  let withNeg :=
    if negative_prompt = "" then base
    else base ++ [("negative_prompt", .jstr negative_prompt)]
  match seed with
  | none => withNeg
  | some s => withNeg ++ [("seed", .jnum s)]

/-- The full payload dict of `call_hf_text2image` (lines 46-63). -/
def buildPayload (prompt : String) (negative_prompt : String) (steps : Int)
    (guidance : ℚ) (width height : Int) (seed : Option Int) : JsonV :=
  .jobj
    [("inputs", .jstr prompt),
     ("parameters",
      .jobj (buildParameters steps guidance width height negative_prompt seed)),
     ("options", .jobj [("wait_for_model", .jbool true)])]

/-- Result of running lines 11-27: either the app continues with a
token, or `st.error` + `st.stop()` halt it (the missing-credential
failure of the spec). -/
inductive CredResult where
  | ok (token : String)
  | missingCredential
deriving Repr, DecidableEq

/-- First-match lookup in the secret store (`st.secrets`), modelled as
an association list; `none` means the key is not in the store. -/
def lookupSecret : List (String × String) → String → Option String
  | [], _ => none
  | (k, v) :: rest, key => if k = key then some v else lookupSecret rest key

/-- `get_hf_token` (lines 11-21): if `"HF_TOKEN" in st.secrets` the
stored value is returned unconditionally; otherwise `os.getenv` is
consulted and its value returned only when truthy (set and non-empty);
otherwise `""`. -/
def get_hf_token (secrets : List (String × String))
    (env : String → Option String) : String :=
  match lookupSecret secrets "HF_TOKEN" with
  | some v => v
  | none =>
    match env "HF_TOKEN" with
    | some e => if e = "" then "" else e
    | none => ""

/-- The module-level resolution (lines 23-27): `HF_TOKEN = get_hf_token()`
followed by `if not HF_TOKEN: st.error(...); st.stop()`. -/
def resolveCredential (secrets : List (String × String))
    (env : String → Option String) : CredResult :=
  let t := get_hf_token secrets env
  if t = "" then .missingCredential else .ok t

/-- The options of the size selectbox on line 122. -/
def sizeOptions : List String := ["1024x1024", "768x768", "512x512"]

/-- Python's `s.split(sep)` for a one-character separator, over the
character list. -/
def splitOnChar (sep : Char) : List Char → List (List Char)
  | [] => [[]]
  | c :: rest =>
    let r := splitOnChar sep rest
    if c = sep then [] :: r
    else
      match r with
      | [] => [[c]]
      | g :: gs => (c :: g) :: gs

/-- Python's `int()` on a string of decimal digits. -/
def pyIntOfDigits (cs : List Char) : Nat :=
  cs.foldl (fun acc c => acc * 10 + (c.toNat - 48)) 0

/-- `w, h = map(int, size.split("x"))` on line 125. -/
def parseSize (s : String) : Nat × Nat :=
  match (splitOnChar ('x') s.data).map pyIntOfDigits with
  | [w, h] => (w, h)
  | _ => (0, 0)

/-- Concrete byte content standing for a PNG body in the scenarios. -/
def pngBytes : List Nat := [137, 80, 78, 71, 13, 10, 26, 10]

/-- The simulated response sequence of the spec's first scenario:
503 with `estimated_time = 2`, 503 with an unparseable body, then
200 with content-type `image/png`. -/
def scenarioResp : Nat → HttpResponse
  | 0 => { status := 503, contentType := "application/json"
           jsonBody := some (.jobj [("estimated_time", .jnum 2)])
           text := "loading", content := [] }
  | 1 => { status := 503, contentType := "text/html"
           jsonBody := none
           text := "Service Unavailable", content := [] }
  | _ => { status := 200, contentType := "image/png"
           jsonBody := none
           text := "", content := pngBytes }

/-- A response stream that always answers 503 with a parseable JSON
body and no `estimated_time` field. -/
def all503Resp : Nat → HttpResponse := fun _ =>
  { status := 503, contentType := "application/json"
    jsonBody := some (.jobj [("error", .jstr "Model is currently loading")])
    text := "loading", content := [] }

/-- A single 200 response whose content-type is `text/plain`. -/
def plain200Resp : Nat → HttpResponse := fun _ =>
  { status := 200, contentType := "text/plain"
    jsonBody := none
    text := "in-band error", content := [] }

/-- A 503 response whose `estimated_time` field is the string "soon". -/
def strEstResp : Nat → HttpResponse := fun _ =>
  { status := 503, contentType := "application/json"
    jsonBody := some (.jobj [("estimated_time", .jstr "soon")])
    text := "loading", content := [] }

/-! ## One-step behaviour of the retry loop -/

theorem genLoop_image (resp : Nat → HttpResponse) (i fuel : Nat)
    (h200 : (resp i).status = 200)
    (himg : pyStartsWith (resp i).contentType "image/" = true) :
    genLoop resp i (fuel + 1) =
      { outcome := .success (resp i).content, attempts := 1, sleeps := [] } := by
  simp [genLoop, h200, himg]

theorem genLoop_warm (resp : Nat → HttpResponse) (i fuel : Nat) (q : ℚ)
    (hs : (resp i).status = 503 ∨ (resp i).status = 504)
    (hq : toPyNumber (estOf (resp i).jsonBody) = some q) :
    genLoop resp i (fuel + 1) =
      { outcome := (genLoop resp (i + 1) fuel).outcome
        attempts := (genLoop resp (i + 1) fuel).attempts + 1
        sleeps := clampSleep q :: (genLoop resp (i + 1) fuel).sleeps } := by
  rcases hs with h | h <;> simp [genLoop, h, hq]

theorem genLoop_err (resp : Nat → HttpResponse) (i fuel : Nat)
    (hni : ¬((resp i).status = 200 ∧
      pyStartsWith (resp i).contentType "image/" = true))
    (h3 : (resp i).status ≠ 503) (h4 : (resp i).status ≠ 504) :
    genLoop resp i (fuel + 1) =
      { outcome := .apiError (resp i).status (resp i).contentType
          (classifyBody (resp i))
        attempts := 1, sleeps := [] } := by
  simp [genLoop, hni, h3, h4]

theorem genLoop_nonnum (resp : Nat → HttpResponse) (i fuel : Nat)
    (hs : (resp i).status = 503 ∨ (resp i).status = 504)
    (hq : toPyNumber (estOf (resp i).jsonBody) = none) :
    genLoop resp i (fuel + 1) =
      { outcome := .typeError, attempts := 1, sleeps := [] } := by
  rcases hs with h | h <;> simp [genLoop, h, hq]

theorem genLoop_all_warm (resp : Nat → HttpResponse) :
    ∀ fuel i,
      (∀ k, k < fuel →
        (((resp (i + k)).status = 503 ∨ (resp (i + k)).status = 504) ∧
         ∃ q, toPyNumber (estOf ((resp (i + k)).jsonBody)) = some q)) →
      (genLoop resp i fuel).outcome = .exhausted ∧
      (genLoop resp i fuel).attempts = fuel ∧
      (genLoop resp i fuel).sleeps.length = fuel
  | 0, i, _ => by simp [genLoop]
  | fuel + 1, i, h => by
    obtain ⟨hs, q, hq⟩ := h 0 (Nat.succ_pos _)
    rw [Nat.add_zero] at hs hq
    have ih := genLoop_all_warm resp fuel (i + 1) (fun k hk => by
      have hh := h (k + 1) (Nat.succ_lt_succ hk)
      rwa [show i + (k + 1) = i + 1 + k by omega] at hh)
    rw [genLoop_warm resp i fuel q hs hq]
    exact ⟨ih.1, by simp [ih.2.1], by simp [ih.2.2]⟩

/-! ## The claims -/

/-- C1: a 503/504 attempt whose estimate (the `estimated_time` field,
defaulting to 10 via `estOf` when the body is unparseable or the field
absent) is the number `q` sleeps exactly `min (max q 3) 30` seconds and
consumes exactly one attempt before the loop continues; and on the
response sequence [503 with estimated_time 2, 503 with no parseable
body, 200 image/png] with three retries the call sleeps 3 then 10
seconds, returns the third response's bytes, and issues 3 requests. -/
theorem warm_retry_sleeps_clamped (resp : Nat → HttpResponse)
    (i fuel : Nat) (q : ℚ)
    (hs : (resp i).status = 503 ∨ (resp i).status = 504)
    (hq : toPyNumber (estOf (resp i).jsonBody) = some q) :
    genLoop resp i (fuel + 1) =
      { outcome := (genLoop resp (i + 1) fuel).outcome
        attempts := (genLoop resp (i + 1) fuel).attempts + 1
        sleeps := min (max q 3) 30 :: (genLoop resp (i + 1) fuel).sleeps } ∧
    call_hf_text2image scenarioResp 3 =
      { outcome := .success pngBytes, attempts := 3, sleeps := [3, 10] } :=
  ⟨genLoop_warm resp i fuel q hs hq, rfl⟩

/-- Witness for C1, at the first response of the spec's scenario. -/
theorem warm_retry_sleeps_clamped_witness :
    ((scenarioResp 0).status = 503 ∨ (scenarioResp 0).status = 504) ∧
    toPyNumber (estOf (scenarioResp 0).jsonBody) = some 2 ∧
    genLoop scenarioResp 0 3 =
      { outcome := (genLoop scenarioResp 1 2).outcome
        attempts := (genLoop scenarioResp 1 2).attempts + 1
        sleeps := min (max 2 3) 30 :: (genLoop scenarioResp 1 2).sleeps } :=
  ⟨Or.inl rfl, rfl,
    (warm_retry_sleeps_clamped scenarioResp 0 2 2 (Or.inl rfl) rfl).1⟩

/-- C2: when every attempt up to `max_retries ≥ 1` answers 503/504 with
a numeric estimate, the call ends exhausted after exactly `max_retries`
attempts and `max_retries` sleeps. -/
theorem retries_exhausted_after_all_transient
    (resp : Nat → HttpResponse) (max_retries : Int)
    (h1 : 1 ≤ max_retries)
    (hall : ∀ k : Nat, (k : Int) < max_retries →
      (((resp k).status = 503 ∨ (resp k).status = 504) ∧
       ∃ q, toPyNumber (estOf (resp k).jsonBody) = some q)) :
    (call_hf_text2image resp max_retries).outcome = .exhausted ∧
    ((call_hf_text2image resp max_retries).attempts : Int) = max_retries ∧
    ((call_hf_text2image resp max_retries).sleeps.length : Int) =
      max_retries := by
  have hmain := genLoop_all_warm resp max_retries.toNat 0 (fun k hk => by
    have hki : (k : Int) < max_retries := by omega
    simpa using hall k hki)
  have htn : (max_retries.toNat : Int) = max_retries := by omega
  refine ⟨hmain.1, ?_, ?_⟩
  · rw [call_hf_text2image] at *; rw [hmain.2.1, htn]
  · rw [call_hf_text2image] at *; rw [hmain.2.2, htn]

/-- Witness for C2: two 503 responses and `max_retries = 2`. -/
theorem retries_exhausted_after_all_transient_witness :
    (1 : Int) ≤ 2 ∧
    (call_hf_text2image all503Resp 2).outcome = .exhausted ∧
    ((call_hf_text2image all503Resp 2).attempts : Int) = 2 ∧
    ((call_hf_text2image all503Resp 2).sleeps.length : Int) = 2 :=
  ⟨by decide,
    retries_exhausted_after_all_transient all503Resp 2 (by decide)
      (fun k _ => ⟨Or.inl rfl, 10, rfl⟩)⟩

/-- C3: a response that is neither a 200-with-image success nor a
503/504 makes the attempt end at once with the hard error carrying the
status, the content-type and the body (decoded as JSON when parseable,
raw text otherwise, via `classifyBody`), with one request issued, no
sleep and no further attempt. -/
theorem hard_error_immediate (resp : Nat → HttpResponse) (i fuel : Nat)
    (hni : ¬((resp i).status = 200 ∧
      pyStartsWith (resp i).contentType "image/" = true))
    (h3 : (resp i).status ≠ 503) (h4 : (resp i).status ≠ 504) :
    genLoop resp i (fuel + 1) =
      { outcome := .apiError (resp i).status (resp i).contentType
          (classifyBody (resp i))
        attempts := 1, sleeps := [] } :=
  genLoop_err resp i fuel hni h3 h4

/-- Witness for C3: a single 200 response with content-type
`text/plain`. -/
theorem hard_error_immediate_witness :
    genLoop plain200Resp 0 5 =
      { outcome := .apiError (plain200Resp 0).status
          (plain200Resp 0).contentType (classifyBody (plain200Resp 0))
        attempts := 1, sleeps := [] } :=
  hard_error_immediate plain200Resp 0 4
    (by simp [plain200Resp, pyStartsWith]) (by decide) (by decide)

/-- C4: a 200 response whose content-type begins with `image/` returns
the raw body bytes at once: one request, no sleep, no further attempt. -/
theorem image_success_immediate (resp : Nat → HttpResponse) (i fuel : Nat)
    (h200 : (resp i).status = 200)
    (himg : pyStartsWith (resp i).contentType "image/" = true) :
    genLoop resp i (fuel + 1) =
      { outcome := .success (resp i).content, attempts := 1, sleeps := [] } :=
  genLoop_image resp i fuel h200 himg

/-- Witness for C4, at the third response of the spec's scenario. -/
theorem image_success_immediate_witness :
    genLoop scenarioResp 2 1 =
      { outcome := .success (scenarioResp 2).content
        attempts := 1, sleeps := [] } :=
  image_success_immediate scenarioResp 2 0 rfl rfl

/-- C5: the secret store is consulted before the environment variable:
a stored value "A" wins over an environment value "B"; with no stored
entry the environment value "B" is returned; with neither source the
resolution halts with the missing-credential failure. -/
theorem credential_order (secrets : List (String × String))
    (env : String → Option String) :
    (lookupSecret secrets "HF_TOKEN" = some "A" →
      env "HF_TOKEN" = some "B" →
      resolveCredential secrets env = .ok "A") ∧
    (lookupSecret secrets "HF_TOKEN" = none →
      env "HF_TOKEN" = some "B" →
      resolveCredential secrets env = .ok "B") ∧
    (lookupSecret secrets "HF_TOKEN" = none →
      env "HF_TOKEN" = none →
      resolveCredential secrets env = .missingCredential) := by
  refine ⟨fun hsec _ => ?_, fun hsec henv => ?_, fun hsec henv => ?_⟩ <;>
    simp [resolveCredential, get_hf_token, hsec] <;> simp [henv]

/-- Witness for C5: the three configurations evaluated concretely. -/
theorem credential_order_witness :
    resolveCredential [("HF_TOKEN", "A")] (fun _ => some "B") = .ok "A" ∧
    resolveCredential [] (fun _ => some "B") = .ok "B" ∧
    resolveCredential [] (fun _ => none) = .missingCredential :=
  ⟨(credential_order [("HF_TOKEN", "A")] (fun _ => some "B")).1 rfl rfl,
   (credential_order [] (fun _ => some "B")).2.1 rfl rfl,
   (credential_order [] (fun _ => none)).2.2 rfl rfl⟩

/-- C6 fails on the code: with a present-but-empty secret-store entry
and environment value "B", `get_hf_token` returns the empty stored
value, not "B", and resolution halts with the missing-credential
failure instead of falling back. -/
theorem secret_empty_no_fallback_cex :
    get_hf_token [("HF_TOKEN", "")]
      (fun k => if k = "HF_TOKEN" then some "B" else none) ≠ "B" ∧
    resolveCredential [("HF_TOKEN", "")]
      (fun k => if k = "HF_TOKEN" then some "B" else none) =
      .missingCredential := by
  exact ⟨by decide, rfl⟩

/-- C6 amended: fallback to the environment variable happens only when
the secret-store key is absent. A present entry is returned as-is, even
when empty — in which case resolution halts with the missing-credential
failure regardless of the environment; when the key is absent a
non-empty environment value is returned. -/
theorem secret_empty_no_fallback (secrets : List (String × String))
    (env : String → Option String) :
    (∀ v, lookupSecret secrets "HF_TOKEN" = some v →
      get_hf_token secrets env = v) ∧
    (lookupSecret secrets "HF_TOKEN" = some "" →
      resolveCredential secrets env = .missingCredential) ∧
    (lookupSecret secrets "HF_TOKEN" = none →
      ∀ e, env "HF_TOKEN" = some e → e ≠ "" →
        get_hf_token secrets env = e) := by
  refine ⟨fun v hsec => ?_, fun hsec => ?_, fun hsec e henv hne => ?_⟩
  · simp [get_hf_token, hsec]
  · simp [resolveCredential, get_hf_token, hsec]
  · simp [get_hf_token, hsec, henv, hne]

/-- Witness for the amended C6: a present-but-empty secret entry beats
a non-empty environment value, and the run halts. -/
theorem secret_empty_no_fallback_witness :
    get_hf_token [("HF_TOKEN", "")] (fun _ => some "B") = "" ∧
    resolveCredential [("HF_TOKEN", "")] (fun _ => some "B") =
      .missingCredential ∧
    get_hf_token [] (fun _ => some "B") = "B" :=
  ⟨(secret_empty_no_fallback [("HF_TOKEN", "")] (fun _ => some "B")).1
      "" rfl,
   (secret_empty_no_fallback [("HF_TOKEN", "")] (fun _ => some "B")).2.1
      rfl,
   (secret_empty_no_fallback [] (fun _ => some "B")).2.2
      rfl "B" rfl (by decide)⟩

/-- C7: the serialized parameters group contains `negative_prompt`
exactly when the input is non-empty (and then equal to it), and
contains `seed` exactly when a seed was supplied (and then equal to
it); absence of the key, not a placeholder value, encodes omission. -/
theorem payload_omits_optional_keys (steps : Int) (guidance : ℚ)
    (width height : Int) (negative_prompt : String) (seed : Option Int) :
    (lookupField
        (buildParameters steps guidance width height negative_prompt seed)
        "negative_prompt" =
      if negative_prompt = "" then none
      else some (.jstr negative_prompt)) ∧
    (lookupField
        (buildParameters steps guidance width height negative_prompt seed)
        "seed" =
      match seed with
      | none => none
      | some s => some (.jnum s)) := by
  cases seed <;> by_cases h : negative_prompt = "" <;>
    simp [buildParameters, lookupField, h]

/-- C8: every size the UI's selectbox offers parses to a width and a
height that are each one of 512, 768, 1024 and equal to each other. -/
theorem size_options_square : ∀ s ∈ sizeOptions,
    ((parseSize s).1 = 512 ∨ (parseSize s).1 = 768 ∨
      (parseSize s).1 = 1024) ∧
    ((parseSize s).2 = 512 ∨ (parseSize s).2 = 768 ∨
      (parseSize s).2 = 1024) ∧
    (parseSize s).1 = (parseSize s).2 := by decide

/-- Witness for C8, on the default selectbox entry. -/
theorem size_options_square_witness :
    "1024x1024" ∈ sizeOptions ∧
    (((parseSize "1024x1024").1 = 512 ∨ (parseSize "1024x1024").1 = 768 ∨
       (parseSize "1024x1024").1 = 1024) ∧
     ((parseSize "1024x1024").2 = 512 ∨ (parseSize "1024x1024").2 = 768 ∨
       (parseSize "1024x1024").2 = 1024) ∧
     (parseSize "1024x1024").1 = (parseSize "1024x1024").2) :=
  ⟨by decide, size_options_square "1024x1024" (by decide)⟩

/-- C9: a 503/504 response whose body is a JSON object carrying a
non-numeric `estimated_time` makes the clamp computation raise an
uncaught `TypeError`: the call stops there with one request issued, no
sleep and no retry. -/
theorem nonnumeric_estimate_type_error (resp : Nat → HttpResponse)
    (i fuel : Nat) (fs : List (String × JsonV)) (v : JsonV)
    (hs : (resp i).status = 503 ∨ (resp i).status = 504)
    (hbody : (resp i).jsonBody = some (.jobj fs))
    (hfield : lookupField fs "estimated_time" = some v)
    (hnum : toPyNumber v = none) :
    genLoop resp i (fuel + 1) =
      { outcome := .typeError, attempts := 1, sleeps := [] } := by
  refine genLoop_nonnum resp i fuel hs ?_
  simp [estOf, hbody, hfield, hnum]

/-- Witness for C9: `estimated_time` is the string "soon". -/
theorem nonnumeric_estimate_type_error_witness :
    genLoop strEstResp 0 5 =
      { outcome := .typeError, attempts := 1, sleeps := [] } :=
  nonnumeric_estimate_type_error strEstResp 0 4
    [("estimated_time", .jstr "soon")] (.jstr "soon")
    (Or.inl rfl) rfl rfl rfl

/-- C10: with a non-positive `max_retries` the loop body never runs —
no request, no sleep — and the call ends at once with the
exhausted-retries failure. -/
theorem nonpositive_retries_no_request (resp : Nat → HttpResponse)
    (max_retries : Int) (h : max_retries ≤ 0) :
    call_hf_text2image resp max_retries =
      { outcome := .exhausted, attempts := 0, sleeps := [] } := by
  rw [call_hf_text2image, Int.toNat_of_nonpos h]
  rfl

/-- Witness for C10, at `max_retries = -1`. -/
theorem nonpositive_retries_no_request_witness :
    call_hf_text2image scenarioResp (-1) =
      { outcome := .exhausted, attempts := 0, sleeps := [] } :=
  nonpositive_retries_no_request scenarioResp (-1) (by decide)

end App
